import Mathlib

/-!
Shallow embedding of the yomika web-scraping library (trulybeloved/yomika)
for checking its natural-language specification.

Modelled modules:
  * `yomika/defaults.py`            → `Yomika.Defaults`
  * `yomika/exceptions.py`          → `Yomika.Exc`
  * `yomika/modules/rate_limiter.py`→ `Yomika.RequestRateLimiter`
  * `yomika/classes.py`             → `Yomika.WebscrapeConfig`, `Yomika.ScrapedResponse`
  * `yomika/webscrape_aiohttp.py`   → `Yomika.webscrapeAiohttpAttempt` and friends
  * `yomika/webscrape_requests.py`  → `Yomika.webscrapeRequestsAttempt` and friends
  * the `backoff.on_exception` decorator (max_tries / max_time semantics)
                                    → `Yomika.backoffRun`
  * `yomika/processors.py`          → `Yomika.scrapeUrlListAsync`, `Yomika.gatherModel`

Time is modelled with exact rationals (a clock read is a `ℚ`); bodies of
HTTP responses are byte lists; the network is an oracle value of type
`TransportResult` supplied per attempt, so every definition stays
executable.
-/

namespace Yomika

/-! ## defaults.py -/

namespace Defaults

/-- `Defaults.DEFAULT_HTTP_HEADERS` from `yomika/defaults.py`, verbatim. -/
def DEFAULT_HTTP_HEADERS : List (String × String) :=
  [("User-Agent", "Mozilla/5.0 (Windows NT 10.0; Win64; x64) AppleWebKit/537.36 (KHTML, like Gecko) Chrome/91.0.4472.124 Safari/537.36"),
   ("Accept", "text/html,application/xhtml+xml,application/xml;q=0.9,image/webp,*/*;q=0.8"),
   ("Accept-Language", "en-US,en;q=0.5"),
   ("Connection", "keep-alive"),
   ("Upgrade-Insecure-Requests", "1"),
   ("Cache-Control", "max-age=0")]

/-- `Defaults.DEFAULT_REQ_TIMEOUT` (seconds). -/
def DEFAULT_REQ_TIMEOUT : Nat := 30

/-- `Defaults.DEFAULT_RPS_LIMIT`: the only requests-per-second constant the
library defines. -/
def DEFAULT_RPS_LIMIT : Nat := 250

/-- `Defaults.DEFAULT_MAX_RETRIES` (backoff `max_tries`). -/
def DEFAULT_MAX_RETRIES : Nat := 3

/-- `Defaults.DEFAULT_MAX_TIME` (backoff `max_time`, seconds). -/
def DEFAULT_MAX_TIME : Nat := 90

/-- The list of requests-per-second presets exposed by `defaults.py`:
`DEFAULT_RPS_LIMIT` is the only one in the source. -/
def ratePresets : List Nat := [DEFAULT_RPS_LIMIT]

end Defaults

/-! ## exceptions.py and the transport-level exception classes

One inductive covers the library's own exception classes
(`yomika/exceptions.py`) together with the transport-library exceptions the
fetch functions catch (`aiohttp.*` / `requests.exceptions.*` /
`asyncio.TimeoutError`), since the `except` chains discriminate on all of
them. -/

inductive Exc where
  | invalidURLError (msg : String)
  | webPageLoadError (msg : String)
  | rateLimitExceededError (msg : String)
  | contentTypeError (msg : String)
  | clientConnectorError (msg : String)      -- aiohttp.ClientConnectorError
  | timeoutError (msg : String)              -- asyncio.TimeoutError
  | tooManyRedirects (msg : String)          -- aiohttp / requests TooManyRedirects
  | clientResponseError (msg : String)       -- aiohttp.ClientResponseError
  | requestsConnectionError (msg : String)   -- requests.exceptions.ConnectionError
  | requestsTimeout (msg : String)           -- requests.exceptions.Timeout
  | requestsHTTPError (msg : String)         -- requests.exceptions.HTTPError
  | otherError (msg : String)                -- any other Exception
  deriving Repr, DecidableEq

instance {ε α : Type} [DecidableEq ε] [DecidableEq α] :
    DecidableEq (Except ε α) := fun x y =>
  match x, y with
  | .ok a, .ok b =>
      if h : a = b then isTrue (by rw [h])
      else isFalse (by intro hh; cases hh; exact h rfl)
  | .error a, .error b =>
      if h : a = b then isTrue (by rw [h])
      else isFalse (by intro hh; cases hh; exact h rfl)
  | .ok _, .error _ => isFalse (by intro hh; cases hh)
  | .error _, .ok _ => isFalse (by intro hh; cases hh)

/-- The retryable-exception tuple of both `backoff.on_exception` decorators:
`(WebPageLoadError, requests.RequestException, RateLimitExceededError,
ConnectionError)`.  `requests.RequestException` is the base class of the
`requests.exceptions.*` family. -/
def retryable : Exc → Bool
  | .webPageLoadError _ => true
  | .rateLimitExceededError _ => true
  | .requestsConnectionError _ => true
  | .requestsTimeout _ => true
  | .requestsHTTPError _ => true
  | .tooManyRedirects _ => true
  | _ => false

/-! ## modules/rate_limiter.py -/

/-- `RequestRateLimiter` state: `min_interval = 1.0 / requests_per_second`
and `last_request_time`, initially `0`. -/
structure RequestRateLimiter where
  min_interval : ℚ
  last_request_time : ℚ
  deriving Repr, DecidableEq

namespace RequestRateLimiter

/-- `RequestRateLimiter.__init__(requests_per_second)`. -/
def init (requests_per_second : ℚ) : RequestRateLimiter :=
  { min_interval := 1 / requests_per_second, last_request_time := 0 }

/-- The sleep duration `wait` / `wait_async` computes from the first clock
read `t1`: `min_interval - (t1 - last_request_time)` when the elapsed time
since the last request is below `min_interval`, else no sleep. -/
def sleepTime (st : RequestRateLimiter) (t1 : ℚ) : ℚ :=
  if t1 - st.last_request_time < st.min_interval then
    st.min_interval - (t1 - st.last_request_time)
  else 0

/-- One `wait()` (or `wait_async()`) call: `t1` is the clock read at entry,
`t2` the clock read after the (possible) sleep; the state update is
`last_request_time = t2`.  The real-time semantics of
`time.sleep` / `asyncio.sleep` (at least `sleepTime` elapses between the two
reads) is a hypothesis of the theorems, not baked into the state update. -/
def wait (st : RequestRateLimiter) (t1 t2 : ℚ) : RequestRateLimiter :=
  let _ := sleepTime st t1
  { st with last_request_time := t2 }

/-- `wait_async` performs the same observe-sleep-update sequence as `wait`. -/
def waitAsync (st : RequestRateLimiter) (t1 t2 : ℚ) : RequestRateLimiter :=
  wait st t1 t2

/-- A sequence of consecutive `wait` calls, given the pair of clock reads of
each call. -/
def waitSeq (st : RequestRateLimiter) : List (ℚ × ℚ) → RequestRateLimiter
  | [] => st
  | (t1, t2) :: rest => waitSeq (wait st t1 t2) rest

/-- A clock-read trace is well-formed for a limiter state when each call's
second read is at least `sleepTime` after its first read (the guarantee of
`time.sleep`/`asyncio.sleep` plus clock monotonicity) and the first read of
each call is not before the previous update. -/
def ValidTrace (st : RequestRateLimiter) : List (ℚ × ℚ) → Prop
  | [] => True
  | (t1, t2) :: rest =>
      st.last_request_time ≤ t1 ∧ t1 + sleepTime st t1 ≤ t2 ∧
      ValidTrace (wait st t1 t2) rest

end RequestRateLimiter

/-- The successive values taken by `last_request_time` over a sequence of
`wait` calls. -/
def RequestRateLimiter.updateTimes (st : RequestRateLimiter) :
    List (ℚ × ℚ) → List ℚ
  | [] => []
  | (t1, t2) :: rest => t2 :: updateTimes (st.wait t1 t2) rest

theorem wait_min_interval (st : RequestRateLimiter) (t1 t2 : ℚ) :
    (st.wait t1 t2).min_interval = st.min_interval := rfl

/-- Single-call lower bound: one well-formed `wait` advances
`last_request_time` by at least `min_interval`. -/
theorem wait_gap (st : RequestRateLimiter) (t1 t2 : ℚ)
    (h2 : t1 + st.sleepTime t1 ≤ t2) :
    st.last_request_time + st.min_interval ≤
      (st.wait t1 t2).last_request_time := by
  unfold RequestRateLimiter.wait
  simp only
  unfold RequestRateLimiter.sleepTime at h2
  by_cases hlt : t1 - st.last_request_time < st.min_interval
  · rw [if_pos hlt] at h2
    linarith
  · rw [if_neg hlt] at h2
    push_neg at hlt
    linarith

/-- C6: for any sequence of consecutive `wait()` (or `wait_async()`) calls on
one `RequestRateLimiter` instance whose clock reads respect the sleep
semantics, the gap between any two consecutive updates of
`last_request_time` is at least `min_interval`; with
`requests_per_second = 5` this is `1/5` of a second per consecutive pair. -/
theorem rate_limiter_consecutive_gap (st : RequestRateLimiter)
    (trace : List (ℚ × ℚ)) (hv : st.ValidTrace trace) :
    List.Chain' (fun a b => a + st.min_interval ≤ b)
      (st.last_request_time :: st.updateTimes trace) := by
  induction trace generalizing st with
  | nil => simp [RequestRateLimiter.updateTimes]
  | cons p rest ih =>
    obtain ⟨t1, t2⟩ := p
    obtain ⟨h1, h2, hrest⟩ := hv
    have hit := ih (st.wait t1 t2) hrest
    rw [wait_min_interval] at hit
    have hgap := wait_gap st t1 t2 h2
    simp only [RequestRateLimiter.updateTimes]
    exact List.Chain'.cons hgap hit

/-- C6 witness: a concrete limiter at 5 requests per second, two consecutive
`wait` calls with sleep-respecting clock reads; the resulting timestamp
updates are at least `1/5` apart. -/
theorem rate_limiter_consecutive_gap_witness :
    (RequestRateLimiter.init 5).ValidTrace [((0:ℚ), 1/5), (1/5, 2/5)] ∧
      List.Chain' (fun a b => a + (RequestRateLimiter.init 5).min_interval ≤ b)
        ((RequestRateLimiter.init 5).last_request_time ::
          (RequestRateLimiter.init 5).updateTimes [((0:ℚ), 1/5), (1/5, 2/5)]) := by
  have hv : (RequestRateLimiter.init 5).ValidTrace [((0:ℚ), 1/5), (1/5, 2/5)] := by
    simp [RequestRateLimiter.ValidTrace, RequestRateLimiter.init,
      RequestRateLimiter.sleepTime, RequestRateLimiter.wait]
    norm_num
  exact ⟨hv, rate_limiter_consecutive_gap _ _ hv⟩

/-! ## classes.py -/

/-- `ScrapedResponse` from `yomika/classes.py`.  Body bytes are a `List Nat`,
elapsed time a rational. -/
structure ScrapedResponse where
  url : String
  status_code : Nat
  content : List Nat
  text : String
  headers : List (String × String)
  elapsed_time : ℚ
  content_type : String
  success : Bool
  error : Option String := none
  deriving Repr, DecidableEq

/-- `RequestRateLimiter()` evaluated once, when the `WebscrapeConfig`
dataclass body is executed at class-definition time (`classes.py` line 17);
Python stores one object, referenced by every default-valued field. -/
def classAttrRateLimiter : RequestRateLimiter :=
  RequestRateLimiter.init Defaults.DEFAULT_RPS_LIMIT

/-- The reference (heap index) of the limiter allocated at class-definition
time. -/
def defaultRateLimiterRef : Nat := 0

/-- The process heap of `RequestRateLimiter` objects right after the module
defining `WebscrapeConfig` is imported: exactly the one class-attribute
instance. -/
def initialHeap : List RequestRateLimiter := [classAttrRateLimiter]

/-- `WebscrapeConfig` from `yomika/classes.py`.  `rate_limiter` is a
reference (heap index) into a heap of `RequestRateLimiter` objects, to model
Python's object identity; the dataclass default is the single
class-definition-time instance. -/
structure WebscrapeConfig where
  custom_headers : Option (List (String × String)) := none
  params : Option (List (String × String)) := none
  cookies : Option (List (String × String)) := none
  timeout : Nat := Defaults.DEFAULT_REQ_TIMEOUT
  allow_redirects : Bool := true
  verify_ssl : Bool := true
  expected_content_type : Option String := none
  proxy : Option String := none
  rate_limiter : Option Nat := some defaultRateLimiterRef
  deriving Repr, DecidableEq

/-- Dereference a config's rate limiter in a heap. -/
def readLimiter (heap : List RequestRateLimiter) (cfg : WebscrapeConfig) :
    Option RequestRateLimiter :=
  cfg.rate_limiter.bind (fun r => heap[r]?)

/-- Mutating effect of `wait` / `wait_async` on the heap object a reference
points to. -/
def heapWait (heap : List RequestRateLimiter) (ref : Nat) (t1 t2 : ℚ) :
    List RequestRateLimiter :=
  match heap[ref]? with
  | some st => heap.set ref (st.wait t1 t2)
  | none => heap

/-! ## The HTTP layer as an oracle -/

/-- What the connection context hands back for one GET: status, headers,
body bytes, decoded text. -/
structure HttpResponse where
  status : Nat
  headers : List (String × String)
  content : List Nat
  text : String
  deriving Repr, DecidableEq

/-- Does `n` occur as a contiguous sublist of the second argument? -/
def listContains (n : List Char) : List Char → Bool
  | [] => n.isEmpty
  | c :: rest => n.isPrefixOf (c :: rest) || listContains n rest

/-- Python's `needle in haystack` on strings: contiguous-substring test. -/
def strIn (needle haystack : String) : Bool :=
  listContains needle.toList haystack.toList

/-- ASCII lower-casing of a character (header names are ASCII). -/
def asciiLower (c : Char) : Char :=
  if c.toNat ≥ 65 ∧ c.toNat ≤ 90 then Char.ofNat (c.toNat + 32) else c

/-- ASCII lower-casing of a string. -/
def lowerStr (s : String) : String := String.mk (s.toList.map asciiLower)

/-- `response.headers.get(name, default)` — HTTP header maps are
case-insensitive. -/
def getHeaderD (hs : List (String × String)) (name d : String) : String :=
  match hs.find? (fun p => lowerStr p.1 == lowerStr name) with
  | some p => p.2
  | none => d

/-- Observable events of one fetch attempt, in program order. -/
inductive Event where
  | limiterWait         -- `config.rate_limiter.wait()` / `.wait_async()` entered
  | networkCall         -- `session.get(...)` issued
  | onSuccessInvoked    -- the user's on_success callback ran
  | onSuccessExcCaught  -- an exception from the on_success call was caught and logged
  | onFailureInvoked    -- the user's on_failure callback ran
  | onFailureExcCaught  -- an exception arising from the on_failure call was caught and logged
  deriving Repr, DecidableEq

/-- Behaviour of the optional user callbacks passed to `webscrape_aiohttp`. -/
structure Callbacks where
  on_success_present : Bool := false
  on_success_raises : Bool := false
  on_failure_present : Bool := false
  on_failure_raises : Bool := false
  deriving Repr, DecidableEq

/-- `run_on_failure` from `webscrape_aiohttp.py` (lines 81–87): evaluates
`on_failure(scrape_result)` inside `try/except Exception`.  `scrape_result`
is a local of the enclosing function assigned only in the success branch; the
`Option` argument is its binding state at the call site.  When it is unbound
(`none`), evaluating the call raises `NameError`, which the handler catches
and logs — the user callback itself never runs. -/
def runOnFailure (cb : Callbacks) (scrape_result : Option ScrapedResponse) :
    List Event :=
  if cb.on_failure_present then
    match scrape_result with
    | none => [Event.onFailureExcCaught]
    | some _ =>
        if cb.on_failure_raises then
          [Event.onFailureInvoked, Event.onFailureExcCaught]
        else [Event.onFailureInvoked]
  else []

/-- The `try ... except Exception` around `on_success(scrape_result)` in the
success branch (`webscrape_aiohttp.py` lines 145–150). -/
def runOnSuccess (cb : Callbacks) : List Event :=
  if cb.on_success_present then
    if cb.on_success_raises then [Event.onSuccessInvoked, Event.onSuccessExcCaught]
    else [Event.onSuccessInvoked]
  else []

/-! ## webscrape_aiohttp.py -/

/-- `str(e)` of a modelled exception. -/
def Exc.msg : Exc → String
  | .invalidURLError m | .webPageLoadError m | .rateLimitExceededError m
  | .contentTypeError m | .clientConnectorError m | .timeoutError m
  | .tooManyRedirects m | .clientResponseError m | .requestsConnectionError m
  | .requestsTimeout m | .requestsHTTPError m | .otherError m => m

/-- The `except` chain of `webscrape_aiohttp` (lines 151–185): how an
exception raised in the `try` body is re-raised.  Every clause except the
`ContentTypeError` one wraps into `WebPageLoadError`; the final
`except Exception` catches everything else — including
`RateLimitExceededError`. -/
def aiohttpExceptChain (url : String) : Exc → Exc
  | .clientConnectorError m =>
      .webPageLoadError ("Connection error for " ++ url ++ ": " ++ m)
  | .timeoutError m =>
      .webPageLoadError ("Timeout error for " ++ url ++ ": " ++ m)
  | .tooManyRedirects m =>
      .webPageLoadError ("Too many redirects for " ++ url ++ ": " ++ m)
  | .clientResponseError m =>
      .webPageLoadError ("HTTP error for " ++ url ++ ": " ++ m)
  | .contentTypeError m => .contentTypeError m
  | e => .webPageLoadError ("Unexpected error while loading " ++ url ++ ": " ++ e.msg)

/-- The `try` body of `webscrape_aiohttp` after `session.get` returns or
raises (lines 108–150), before the `except` chain: rate-limit status check,
`raise_for_status()`, body read, content-type gate, `ScrapedResponse`
construction.  `net` is what `session.get` did; `elapsed` is
`time.time() - start_time` at response construction. -/
def aiohttpBody (url : String) (cfg : WebscrapeConfig)
    (net : Except Exc HttpResponse) (elapsed : ℚ) :
    Except Exc ScrapedResponse :=
  match net with
  | .error e => .error e
  | .ok response =>
    if response.status = 429 ∨ response.status = 503 then
      .error (.rateLimitExceededError
        ("Rate limit exceeded: " ++ toString response.status))
    else if 400 ≤ response.status then
      -- response.raise_for_status() raises aiohttp.ClientResponseError
      .error (.clientResponseError (toString response.status))
    else
      let content_type := getHeaderD response.headers "Content-Type" ""
      match cfg.expected_content_type with
      | some ect =>
        if ¬ strIn ect content_type then
          .error (.contentTypeError
            ("Expected content type '" ++ ect ++ "' but got '" ++ content_type ++ "'"))
        else
          .ok { url := url, status_code := response.status,
                content := response.content, text := response.text,
                headers := response.headers, elapsed_time := elapsed,
                content_type := content_type, success := true }
      | none =>
          .ok { url := url, status_code := response.status,
                content := response.content, text := response.text,
                headers := response.headers, elapsed_time := elapsed,
                content_type := content_type, success := true }

/-- One attempt of `webscrape_aiohttp(url, config, session, on_success,
on_failure)` (the decorated function's body).  `valid` is the verdict of the
external collaborator `is_valid_url(url)`; `net` is the transport oracle for
this attempt's `session.get`.  Returns the outcome together with the ordered
event trace.  Program order from the source: validate → rate-limit wait →
headers → GET → classify → callbacks / except chain. -/
def webscrapeAiohttpAttempt (url : String) (valid : Bool)
    (cfg : WebscrapeConfig) (net : Except Exc HttpResponse)
    (cb : Callbacks) (elapsed : ℚ) :
    Except Exc ScrapedResponse × List Event :=
  if ¬ valid then
    (.error (.invalidURLError ("Invalid URL format: " ++ url)), [])
  else
    let waitEvents : List Event :=
      if cfg.rate_limiter.isSome then [Event.limiterWait] else []
    let _headers := cfg.custom_headers.getD Defaults.DEFAULT_HTTP_HEADERS
    match aiohttpBody url cfg net elapsed with
    | .ok r =>
        (.ok r, waitEvents ++ [Event.networkCall] ++ runOnSuccess cb)
    | .error e =>
        -- every raise site in the try body precedes the assignment of
        -- scrape_result, so the local is unbound in run_on_failure
        (.error (aiohttpExceptChain url e),
         waitEvents ++ [Event.networkCall] ++ runOnFailure cb none)

/-! ## webscrape_requests.py -/

/-- The `except` chain of `webscrape_requests` (lines 176–205): the four
`requests.exceptions.*` clauses and the final `except Exception` wrap into
`WebPageLoadError`; only `ContentTypeError` is re-raised unchanged. -/
def requestsExceptChain (url : String) : Exc → Exc
  | .requestsConnectionError m =>
      .webPageLoadError ("Connection error for " ++ url ++ ": " ++ m)
  | .requestsTimeout m =>
      .webPageLoadError ("Timeout error for " ++ url ++ ": " ++ m)
  | .tooManyRedirects m =>
      .webPageLoadError ("Too many redirects for " ++ url ++ ": " ++ m)
  | .requestsHTTPError m =>
      .webPageLoadError ("HTTP error for " ++ url ++ ": " ++ m)
  | .contentTypeError m => .contentTypeError m
  | e => .webPageLoadError ("Unexpected error while loading " ++ url ++ ": " ++ e.msg)

/-- The `try` body of `webscrape_requests` after `session.get` (lines
139–174): `raise_for_status()` first, then the content-type gate, then the
429/503 check (unreachable for those statuses, since `raise_for_status`
already raised), then the `ScrapedResponse`. -/
def requestsBody (url : String) (expected_content_type : Option String)
    (net : Except Exc HttpResponse) (elapsed : ℚ) :
    Except Exc ScrapedResponse :=
  match net with
  | .error e => .error e
  | .ok response =>
    if 400 ≤ response.status then
      -- response.raise_for_status() raises requests.exceptions.HTTPError
      .error (.requestsHTTPError (toString response.status))
    else
      let content_type := getHeaderD response.headers "Content-Type" ""
      let ctFail : Bool :=
        match expected_content_type with
        | some ect => ! strIn ect content_type
        | none => false
      if ctFail then
        .error (.contentTypeError
          ("Expected content type '" ++ expected_content_type.getD "" ++
           "' but got '" ++ content_type ++ "'"))
      else if response.status = 429 ∨ response.status = 503 then
        .error (.rateLimitExceededError
          ("Rate limit exceeded: " ++ toString response.status))
      else
        .ok { url := url, status_code := response.status,
              content := response.content, text := response.text,
              headers := response.headers, elapsed_time := elapsed,
              content_type := content_type, success := true }

/-- One attempt of `webscrape_requests` (the decorated function's body,
lines 114–205).  Program order from the source: rate-limit `wait()` FIRST
(lines 118–119), then URL validation (lines 121–123), then headers, GET,
classification.  `rate_limiter_present` mirrors the `rate_limiter` keyword
argument (default `None`). -/
def webscrapeRequestsAttempt (url : String) (valid : Bool)
    (rate_limiter_present : Bool) (expected_content_type : Option String)
    (net : Except Exc HttpResponse) (elapsed : ℚ) :
    Except Exc ScrapedResponse × List Event :=
  let waitEvents : List Event :=
    if rate_limiter_present then [Event.limiterWait] else []
  if ¬ valid then
    (.error (.invalidURLError ("Invalid URL format: " ++ url)), waitEvents)
  else
    match requestsBody url expected_content_type net elapsed with
    | .ok r => (.ok r, waitEvents ++ [Event.networkCall])
    | .error e =>
        (.error (requestsExceptChain url e), waitEvents ++ [Event.networkCall])

/-! ## The `backoff.on_exception` decorator

`backoff.expo` with `max_tries` and `max_time` wraps the attempt body: run
an attempt; on an exception from the configured tuple (`retryable`), give up
and re-raise when the try count has reached `max_tries` or the elapsed time
has reached `max_time`, otherwise sleep and re-attempt.  `attempt k` is the
outcome of the (k+1)-th try, `dur k` the wall-clock time the (k+1)-th try
plus its backoff sleep consumed. -/

def backoffAux {A : Type} (attempt : Nat → Except Exc A) (dur : Nat → ℚ)
    (maxTime : ℚ) : Nat → Nat → ℚ → Except Exc A × Nat
  | 0, k, _ => (.error (.otherError "max_tries must be positive"), k)
  | fuel + 1, k, elapsed =>
    match attempt k with
    | .ok r => (.ok r, k + 1)
    | .error e =>
      if fuel = 0 ∨ retryable e = false ∨ maxTime ≤ elapsed + dur k then
        (.error e, k + 1)
      else
        backoffAux attempt dur maxTime fuel (k + 1) (elapsed + dur k)

/-- Run a decorated attempt under `max_tries` / `max_time`; returns the
surfaced outcome and the number of attempts actually made. -/
def backoffRun {A : Type} (attempt : Nat → Except Exc A) (dur : Nat → ℚ)
    (maxTries : Nat) (maxTime : ℚ) : Except Exc A × Nat :=
  backoffAux attempt dur maxTime maxTries 0 0

/-- `webscrape_aiohttp` as exported: the attempt body wrapped by
`backoff.on_exception(backoff.expo, (...), max_tries=3, max_time=90)`. -/
def webscrapeAiohttpFetch (url : String) (valid : Bool)
    (cfg : WebscrapeConfig) (cb : Callbacks)
    (net : Nat → Except Exc HttpResponse) (elapsedOf : Nat → ℚ)
    (dur : Nat → ℚ) : Except Exc ScrapedResponse × Nat :=
  backoffRun (fun k => (webscrapeAiohttpAttempt url valid cfg (net k) cb (elapsedOf k)).1)
    dur Defaults.DEFAULT_MAX_RETRIES (Defaults.DEFAULT_MAX_TIME : ℚ)

/-- `webscrape_requests` as exported: the attempt body wrapped by the same
decorator. -/
def webscrapeRequestsFetch (url : String) (valid : Bool)
    (rate_limiter_present : Bool) (expected_content_type : Option String)
    (net : Nat → Except Exc HttpResponse) (elapsedOf : Nat → ℚ)
    (dur : Nat → ℚ) : Except Exc ScrapedResponse × Nat :=
  backoffRun (fun k => (webscrapeRequestsAttempt url valid rate_limiter_present
      expected_content_type (net k) (elapsedOf k)).1)
    dur Defaults.DEFAULT_MAX_RETRIES (Defaults.DEFAULT_MAX_TIME : ℚ)

/-! ## processors.py -/

/-- One scheduling step of the event loop: complete task `i`, storing its
value into slot `i` of the result array `asyncio.gather` maintains. -/
def execStep {A : Type} (tasks : List (Unit → A)) (slots : List (Option A))
    (i : Nat) : List (Option A) :=
  match tasks[i]? with
  | some t => slots.set i (some (t ()))
  | none => slots

/-- `asyncio.gather(*tasks, return_exceptions=True)` under an arbitrary
completion schedule `order`: tasks complete in schedule order, each filling
its own input-position slot; the aggregate list is read off slot by slot. -/
def gatherModel {A : Type} (tasks : List (Unit → A)) (order : List Nat) :
    List (Option A) :=
  order.foldl (execStep tasks) (List.replicate tasks.length none)

/-- Position of the first exception in the gathered results, mirroring
`for i, result in enumerate(results): if isinstance(result, Exception):
raise result`. -/
def firstError {A : Type} : List (Except Exc A) → Option Exc
  | [] => none
  | .error e :: _ => some e
  | .ok _ :: rest => firstError rest

/-- `scrape_url_list_async(url_list, ...)` (processors.py lines 37–63),
given the per-URL terminal fetch outcome `fetch`: `asyncio.gather` with
`return_exceptions=True` runs every task to completion and yields one
outcome per URL in input order; the loop then re-raises the first
exception, else the list of responses is returned. -/
def scrapeUrlListAsync (fetch : String → Except Exc ScrapedResponse)
    (urls : List String) : Except Exc (List ScrapedResponse) :=
  let results := urls.map fetch
  match firstError results with
  | some e => .error e
  | none => .ok (results.filterMap Except.toOption)

/-! ## Claim theorems -/

/-- C9 counterexample: the library exposes exactly one requests-per-second
constant, `Defaults.DEFAULT_RPS_LIMIT = 250`; no 5-requests-per-second
default or preset exists, contradicting the claimed pair of named presets
with 5 as the default. -/
theorem defaults_no_five_rps_preset :
    Defaults.DEFAULT_RPS_LIMIT = 250 ∧ Defaults.ratePresets = [250] ∧
      (5 : Nat) ∉ Defaults.ratePresets ∧ Defaults.DEFAULT_RPS_LIMIT ≠ 5 := by
  refine ⟨rfl, rfl, ?_, by decide⟩
  decide

/-- C9 amended: the defaults are bit-exact as specified for the request
timeout (30 s), maximum retry attempts (3), maximum cumulative retry time
(90 s) and the literal default header set; the sole requests-per-second
preset is `DEFAULT_RPS_LIMIT = 250` (there is no 5 rps preset). -/
theorem defaults_bit_exact :
    Defaults.DEFAULT_REQ_TIMEOUT = 30 ∧
    ({} : WebscrapeConfig).timeout = 30 ∧
    Defaults.DEFAULT_MAX_RETRIES = 3 ∧
    Defaults.DEFAULT_MAX_TIME = 90 ∧
    Defaults.ratePresets = [250] ∧
    Defaults.DEFAULT_HTTP_HEADERS =
      [("User-Agent", "Mozilla/5.0 (Windows NT 10.0; Win64; x64) AppleWebKit/537.36 (KHTML, like Gecko) Chrome/91.0.4472.124 Safari/537.36"),
       ("Accept", "text/html,application/xhtml+xml,application/xml;q=0.9,image/webp,*/*;q=0.8"),
       ("Accept-Language", "en-US,en;q=0.5"),
       ("Connection", "keep-alive"),
       ("Upgrade-Insecure-Requests", "1"),
       ("Cache-Control", "max-age=0")] :=
  ⟨rfl, rfl, rfl, rfl, rfl, rfl⟩

/-- C10: every default-valued `WebscrapeConfig` shares the single
`RequestRateLimiter` allocated when the dataclass was defined
(`defaultRateLimiterRef`); looking it up yields a limiter throttled at the
default 250 requests per second (`min_interval = 1/250`), the limiter is
present on the default path, and one call's `wait_async` through that
reference changes the state every other default config observes. -/
theorem default_config_shared_rate_limiter :
    (({} : WebscrapeConfig).rate_limiter = some defaultRateLimiterRef) ∧
    (∀ cfgA cfgB : WebscrapeConfig, cfgA = {} → cfgB = {} →
      cfgA.rate_limiter = cfgB.rate_limiter) ∧
    readLimiter initialHeap {} =
      some (RequestRateLimiter.init Defaults.DEFAULT_RPS_LIMIT) ∧
    (RequestRateLimiter.init Defaults.DEFAULT_RPS_LIMIT).min_interval = 1 / 250 ∧
    (∀ url net cb elapsed,
      Event.limiterWait ∈ (webscrapeAiohttpAttempt url true {} net cb elapsed).2) ∧
    (∀ t1 t2 : ℚ,
      readLimiter (heapWait initialHeap defaultRateLimiterRef t1 t2) {} =
        some ((RequestRateLimiter.init Defaults.DEFAULT_RPS_LIMIT).wait t1 t2)) := by
  refine ⟨rfl, ?_, rfl,
    by norm_num [RequestRateLimiter.init, Defaults.DEFAULT_RPS_LIMIT], ?_, ?_⟩
  · intro cfgA cfgB hA hB
    rw [hA, hB]
  · intro url net cb elapsed
    unfold webscrapeAiohttpAttempt
    simp only [Bool.not_true, if_false, Bool.false_eq_true]
    cases h : aiohttpBody url {} net elapsed with
    | ok r =>
        simp [h, WebscrapeConfig.rate_limiter]
    | error e =>
        simp [h, WebscrapeConfig.rate_limiter]
  · intro t1 t2
    rfl

/-- A first attempt failing with an exception outside the decorator's tuple
is surfaced at once: one attempt, no retry. -/
theorem backoffRun_nonretryable_stops {A : Type} (attempt : Nat → Except Exc A)
    (dur : Nat → ℚ) (maxTries : Nat) (maxTime : ℚ) (e : Exc)
    (h0 : attempt 0 = .error e) (hr : retryable e = false) (hm : maxTries ≠ 0) :
    backoffRun attempt dur maxTries maxTime = (.error e, 1) := by
  cases maxTries with
  | zero => exact absurd rfl hm
  | succ fuel =>
    unfold backoffRun backoffAux
    rw [h0]
    simp [hr]

/-- C2 counterexample: in `webscrape_requests` the rate limiter IS consulted
on an invalid URL — `rate_limiter.wait()` (lines 118–119) runs before the
validity check (lines 121–123), so the attempt trace of an invalid-URL call
with a limiter configured records a limiter wait. -/
theorem requests_limiter_consulted_before_validation :
    webscrapeRequestsAttempt "htp:/bad" false true none
        (.ok { status := 200, headers := [], content := [], text := "" }) 0 =
      (.error (.invalidURLError "Invalid URL format: htp:/bad"),
       [Event.limiterWait]) := by
  rfl

/-- C2 amended: a URL rejected by the external validator fails with
`InvalidURL` within a single attempt, zero retries, and without any network
call in both variants; `webscrape_aiohttp` validates before consulting the
rate limiter (empty trace), while `webscrape_requests` consults a configured
rate limiter first and only then validates. -/
theorem invalid_url_single_attempt (url : String) (cfg : WebscrapeConfig)
    (cb : Callbacks) (rlp : Bool) (ect : Option String)
    (net1 : Except Exc HttpResponse) (el : ℚ)
    (net : Nat → Except Exc HttpResponse) (elapsedOf dur : Nat → ℚ) :
    webscrapeAiohttpAttempt url false cfg net1 cb el =
      (.error (.invalidURLError ("Invalid URL format: " ++ url)), []) ∧
    webscrapeRequestsAttempt url false rlp ect net1 el =
      (.error (.invalidURLError ("Invalid URL format: " ++ url)),
       if rlp then [Event.limiterWait] else []) ∧
    webscrapeAiohttpFetch url false cfg cb net elapsedOf dur =
      (.error (.invalidURLError ("Invalid URL format: " ++ url)), 1) ∧
    webscrapeRequestsFetch url false rlp ect net elapsedOf dur =
      (.error (.invalidURLError ("Invalid URL format: " ++ url)), 1) := by
  refine ⟨rfl, rfl, ?_, ?_⟩
  · exact backoffRun_nonretryable_stops _ dur _ _ _ rfl rfl (by decide)
  · exact backoffRun_nonretryable_stops _ dur _ _ _ rfl rfl (by decide)

/-- C4: when `expected_content_type` is set and is not a substring of the
response's Content-Type header (and the response is otherwise acceptable:
status below 400), both fetch variants terminate with `ContentTypeError`
after exactly one attempt; `ContentTypeError` is outside the decorator's
retryable tuple. -/
theorem content_type_mismatch_not_retried (url : String)
    (cfg : WebscrapeConfig) (cb : Callbacks) (rlp : Bool) (ect : String)
    (response : HttpResponse) (net : Nat → Except Exc HttpResponse)
    (elapsedOf dur : Nat → ℚ)
    (hcfg : cfg.expected_content_type = some ect)
    (hnet : net 0 = .ok response)
    (hstatus : response.status < 400)
    (hmm : strIn ect (getHeaderD response.headers "Content-Type" "") = false) :
    retryable (.contentTypeError ("Expected content type '" ++ ect ++
        "' but got '" ++ getHeaderD response.headers "Content-Type" "" ++ "'")) =
      false ∧
    webscrapeAiohttpFetch url true cfg cb net elapsedOf dur =
      (.error (.contentTypeError ("Expected content type '" ++ ect ++
        "' but got '" ++ getHeaderD response.headers "Content-Type" "" ++ "'")), 1) ∧
    webscrapeRequestsFetch url true rlp (some ect) net elapsedOf dur =
      (.error (.contentTypeError ("Expected content type '" ++ ect ++
        "' but got '" ++ getHeaderD response.headers "Content-Type" "" ++ "'")), 1) := by
  have h429 : ¬ (response.status = 429 ∨ response.status = 503) := by omega
  have h400 : ¬ (400 ≤ response.status) := by omega
  refine ⟨rfl, ?_, ?_⟩
  · refine backoffRun_nonretryable_stops _ dur _ _
      (.contentTypeError ("Expected content type '" ++ ect ++ "' but got '" ++
        getHeaderD response.headers "Content-Type" "" ++ "'")) ?_ rfl (by decide)
    simp [webscrapeAiohttpAttempt, aiohttpBody, hnet, hcfg, h429, h400, hmm,
      aiohttpExceptChain]
  · refine backoffRun_nonretryable_stops _ dur _ _
      (.contentTypeError ("Expected content type '" ++ ect ++ "' but got '" ++
        getHeaderD response.headers "Content-Type" "" ++ "'")) ?_ rfl (by decide)
    simp [webscrapeRequestsAttempt, requestsBody, hnet, h400, hmm,
      requestsExceptChain]

/-- A concrete JSON response used to witness the content-type gate. -/
def jsonResp : HttpResponse :=
  { status := 200, headers := [("Content-Type", "application/json")],
    content := [], text := "" }

/-- A config expecting `text/html`. -/
def htmlCfg : WebscrapeConfig := { expected_content_type := some "text/html" }

/-- C4 witness: a concrete 200 response with Content-Type
`application/json` against `expected_content_type = "text/html"`: one
attempt, `ContentTypeError`, in both variants. -/
theorem content_type_mismatch_not_retried_witness :
    strIn "text/html" (getHeaderD jsonResp.headers "Content-Type" "") = false ∧
    webscrapeAiohttpFetch "https://example.com" true htmlCfg {}
        (fun _ => .ok jsonResp) (fun _ => 0) (fun _ => 0) =
      (.error (.contentTypeError
        "Expected content type 'text/html' but got 'application/json'"), 1) ∧
    webscrapeRequestsFetch "https://example.com" true false (some "text/html")
        (fun _ => .ok jsonResp) (fun _ => 0) (fun _ => 0) =
      (.error (.contentTypeError
        "Expected content type 'text/html' but got 'application/json'"), 1) := by
  have h := content_type_mismatch_not_retried "https://example.com"
    htmlCfg {} false "text/html" jsonResp (fun _ => .ok jsonResp)
    (fun _ => 0) (fun _ => 0) rfl rfl (by decide) (by decide)
  refine ⟨by decide, ?_, ?_⟩
  · simpa using h.2.1
  · simpa using h.2.2

/-- A concrete HTTP 429 response. -/
def resp429 : HttpResponse :=
  { status := 429, headers := [], content := [], text := "" }

/-- C3 counterexample: a fetch of a URL that always answers 429 surfaces
`WebPageLoadError` — in the aiohttp variant the internally raised
`RateLimitExceededError` is caught by the final `except Exception` clause
and re-raised as `WebPageLoadError`; the requests variant never reaches its
429/503 check because `raise_for_status()` raises first.  Neither variant's
outcome is `RateLimitExceededError`. -/
theorem rate_limited_surfaces_as_page_load_error :
    webscrapeAiohttpFetch "https://example.com" true { rate_limiter := none } {}
        (fun _ => .ok resp429) (fun _ => 0) (fun _ => 0) =
      (.error (.webPageLoadError
        "Unexpected error while loading https://example.com: Rate limit exceeded: 429"), 3) ∧
    webscrapeRequestsFetch "https://example.com" true false none
        (fun _ => .ok resp429) (fun _ => 0) (fun _ => 0) =
      (.error (.webPageLoadError "HTTP error for https://example.com: 429"), 3) ∧
    (∀ m, (webscrapeAiohttpFetch "https://example.com" true { rate_limiter := none } {}
        (fun _ => .ok resp429) (fun _ => 0) (fun _ => 0)).1 ≠
      .error (.rateLimitExceededError m)) := by
  have hA : webscrapeAiohttpFetch "https://example.com" true
      { rate_limiter := none } {} (fun _ => .ok resp429) (fun _ => 0) (fun _ => 0) =
      (.error (.webPageLoadError
        "Unexpected error while loading https://example.com: Rate limit exceeded: 429"), 3) := by
    norm_num [webscrapeAiohttpFetch, backoffRun, backoffAux, webscrapeAiohttpAttempt,
      aiohttpBody, aiohttpExceptChain, retryable, resp429, Exc.msg,
      Defaults.DEFAULT_MAX_TIME, Defaults.DEFAULT_MAX_RETRIES]
    decide
  have hB : webscrapeRequestsFetch "https://example.com" true false none
      (fun _ => .ok resp429) (fun _ => 0) (fun _ => 0) =
      (.error (.webPageLoadError "HTTP error for https://example.com: 429"), 3) := by
    norm_num [webscrapeRequestsFetch, backoffRun, backoffAux, webscrapeRequestsAttempt,
      requestsBody, requestsExceptChain, retryable, resp429, Exc.msg,
      Defaults.DEFAULT_MAX_TIME, Defaults.DEFAULT_MAX_RETRIES]
    decide
  refine ⟨hA, hB, ?_⟩
  intro m h
  rw [congrArg Prod.fst hA] at h
  simp at h

/-- C3 amended: on a 429 or 503 status the aiohttp body does raise
`RateLimitExceededError` (and that exception class is in the retryable
tuple), but the surrounding `except Exception` clause re-raises it as
`WebPageLoadError`, which is what the caller sees — itself retryable; the
requests variant classifies the same statuses through `raise_for_status()`
as an HTTP error, also surfacing `WebPageLoadError`.  The outcome is
retried, but its surfaced kind is WebPageLoad, never RateLimited. -/
theorem rate_limited_status_classification (url : String)
    (cfg : WebscrapeConfig) (cb : Callbacks) (rlp : Bool)
    (ect : Option String) (response : HttpResponse) (el : ℚ)
    (h : response.status = 429 ∨ response.status = 503) :
    aiohttpBody url cfg (.ok response) el =
      .error (.rateLimitExceededError
        ("Rate limit exceeded: " ++ toString response.status)) ∧
    retryable (.rateLimitExceededError
        ("Rate limit exceeded: " ++ toString response.status)) = true ∧
    (webscrapeAiohttpAttempt url true cfg (.ok response) cb el).1 =
      .error (.webPageLoadError ("Unexpected error while loading " ++ url ++
        ": " ++ ("Rate limit exceeded: " ++ toString response.status))) ∧
    retryable (.webPageLoadError ("Unexpected error while loading " ++ url ++
        ": " ++ ("Rate limit exceeded: " ++ toString response.status))) = true ∧
    (webscrapeRequestsAttempt url true rlp ect (.ok response) el).1 =
      .error (.webPageLoadError
        ("HTTP error for " ++ url ++ ": " ++ toString response.status)) := by
  have h400 : 400 ≤ response.status := by omega
  refine ⟨?_, rfl, ?_, rfl, ?_⟩
  · simp [aiohttpBody, h]
  · simp [webscrapeAiohttpAttempt, aiohttpBody, h, aiohttpExceptChain, Exc.msg]
  · simp [webscrapeRequestsAttempt, requestsBody, h400, requestsExceptChain]

/-- C3 witness: the amended classification at the concrete 429 response. -/
theorem rate_limited_status_classification_witness :
    (resp429.status = 429 ∨ resp429.status = 503) ∧
    (webscrapeAiohttpAttempt "https://example.com" true {} (.ok resp429) {} 0).1 =
      .error (.webPageLoadError ("Unexpected error while loading " ++
        "https://example.com" ++ ": " ++
        ("Rate limit exceeded: " ++ toString resp429.status))) :=
  ⟨Or.inl rfl,
   (rate_limited_status_classification "https://example.com" {} {} false none
     resp429 0 (Or.inl rfl)).2.2.1⟩

/-- Cumulative wall-clock time after the first `k` attempts (attempt
durations plus backoff sleeps). -/
def elapsedSum (dur : Nat → ℚ) : Nat → ℚ
  | 0 => 0
  | k + 1 => elapsedSum dur k + dur k

/-- Invariant of the decorator loop when every attempt fails with a
retryable exception: starting at attempt `k` with the elapsed clock at
`elapsedSum dur k` and `fuel` tries left, the loop makes between 1 and
`fuel` further attempts, surfaces the error of the last attempt made, and
every retry is launched only while the cumulative elapsed time is below
`maxTime`. -/
theorem backoffAux_all_retryable {A : Type} (attempt : Nat → Except Exc A)
    (dur : Nat → ℚ) (maxTime : ℚ)
    (hfail : ∀ j, ∃ e, attempt j = .error e ∧ retryable e = true) :
    ∀ fuel k, fuel ≠ 0 →
      k < (backoffAux attempt dur maxTime fuel k (elapsedSum dur k)).2 ∧
      (backoffAux attempt dur maxTime fuel k (elapsedSum dur k)).2 ≤ k + fuel ∧
      (∃ e, (backoffAux attempt dur maxTime fuel k (elapsedSum dur k)).1 = .error e ∧
        attempt ((backoffAux attempt dur maxTime fuel k (elapsedSum dur k)).2 - 1) =
          .error e) ∧
      (∀ j, k < j → j < (backoffAux attempt dur maxTime fuel k (elapsedSum dur k)).2 →
        elapsedSum dur j < maxTime) := by
  intro fuel
  induction fuel with
  | zero => intro k h; exact absurd rfl h
  | succ f ih =>
    intro k _
    obtain ⟨e, he, hr⟩ := hfail k
    by_cases hc : f = 0 ∨ retryable e = false ∨ maxTime ≤ elapsedSum dur k + dur k
    · have hstep : backoffAux attempt dur maxTime (f + 1) k (elapsedSum dur k) =
          (.error e, k + 1) := by
        simp only [backoffAux, he]
        rw [if_pos hc]
      rw [hstep]
      refine ⟨by omega, by omega, ⟨e, rfl, by simpa using he⟩, ?_⟩
      intro j hj1 hj2
      omega
    · have hstep : backoffAux attempt dur maxTime (f + 1) k (elapsedSum dur k) =
          backoffAux attempt dur maxTime f (k + 1) (elapsedSum dur (k + 1)) := by
        simp only [backoffAux, he]
        rw [if_neg hc]
        rfl
      rw [hstep]
      push_neg at hc
      obtain ⟨hf0, _, htime⟩ := hc
      obtain ⟨h1, h2, h3, h4⟩ := ih (k + 1) hf0
      refine ⟨by omega, by omega, h3, ?_⟩
      intro j hj1 hj2
      rcases Nat.eq_or_lt_of_le hj1 with hj | hj
      · subst hj
        exact htime
      · exact h4 j hj hj2

/-- C5: when every attempt fails with a retryable error, the decorated
fetch makes at most `DEFAULT_MAX_RETRIES = 3` attempts, every retry is
launched only while cumulative elapsed time is still below
`DEFAULT_MAX_TIME = 90` seconds (so retrying stops once the time budget is
reached, whichever bound triggers first), and the error of the last attempt
is surfaced to the caller. -/
theorem retry_attempt_and_time_bounds (attempt : Nat → Except Exc ScrapedResponse)
    (dur : Nat → ℚ)
    (hfail : ∀ j, ∃ e, attempt j = .error e ∧ retryable e = true) :
    1 ≤ (backoffRun attempt dur Defaults.DEFAULT_MAX_RETRIES
          (Defaults.DEFAULT_MAX_TIME : ℚ)).2 ∧
    (backoffRun attempt dur Defaults.DEFAULT_MAX_RETRIES
          (Defaults.DEFAULT_MAX_TIME : ℚ)).2 ≤ 3 ∧
    (∃ e, (backoffRun attempt dur Defaults.DEFAULT_MAX_RETRIES
          (Defaults.DEFAULT_MAX_TIME : ℚ)).1 = .error e ∧
      attempt ((backoffRun attempt dur Defaults.DEFAULT_MAX_RETRIES
          (Defaults.DEFAULT_MAX_TIME : ℚ)).2 - 1) = .error e) ∧
    (∀ j, 0 < j → j < (backoffRun attempt dur Defaults.DEFAULT_MAX_RETRIES
          (Defaults.DEFAULT_MAX_TIME : ℚ)).2 →
      elapsedSum dur j < 90) := by
  have h := backoffAux_all_retryable attempt dur (Defaults.DEFAULT_MAX_TIME : ℚ)
    hfail 3 0 (by decide)
  have hcast : ((Defaults.DEFAULT_MAX_TIME : Nat) : ℚ) = 90 := by
    norm_num [Defaults.DEFAULT_MAX_TIME]
  have h0 : elapsedSum dur 0 = 0 := rfl
  rw [h0] at h
  obtain ⟨h1, h2, h3, h4⟩ := h
  refine ⟨h1, by simpa using h2, h3, ?_⟩
  intro j hj1 hj2
  have := h4 j hj1 hj2
  rwa [hcast] at this

/-- C5 witness: a constantly failing attempt (retryable `WebPageLoadError`)
with unit attempt duration satisfies the bounds. -/
theorem retry_attempt_and_time_bounds_witness :
    (∀ j : Nat, ∃ e, (fun _ : Nat =>
        (.error (.webPageLoadError "boom") : Except Exc ScrapedResponse)) j =
          .error e ∧ retryable e = true) ∧
    (backoffRun (fun _ => (.error (.webPageLoadError "boom") :
        Except Exc ScrapedResponse)) (fun _ => 1) Defaults.DEFAULT_MAX_RETRIES
        (Defaults.DEFAULT_MAX_TIME : ℚ)).2 ≤ 3 :=
  ⟨fun _ => ⟨.webPageLoadError "boom", rfl, rfl⟩,
   (retry_attempt_and_time_bounds _ (fun _ => 1)
     (fun _ => ⟨.webPageLoadError "boom", rfl, rfl⟩)).2.1⟩

/-- A successful `ScrapedResponse` for URL `u` (status 200, empty body). -/
def okResp (u : String) : ScrapedResponse :=
  { url := u, status_code := 200, content := [], text := "", headers := [],
    elapsed_time := 0, content_type := "", success := true }

/-- A concrete per-URL outcome function: one bad URL, the rest succeed. -/
def fetchMixed : String → Except Exc ScrapedResponse := fun u =>
  if u = "htp:/bad" then .error (.invalidURLError "Invalid URL format: htp:/bad")
  else .ok (okResp u)

theorem firstError_none_of_all_ok (fetch : String → Except Exc ScrapedResponse) :
    ∀ urls : List String, (∀ u ∈ urls, ∃ r, fetch u = .ok r) →
      firstError (urls.map fetch) = none := by
  intro urls
  induction urls with
  | nil => intro _; rfl
  | cons u us ih =>
    intro h
    obtain ⟨r, hr⟩ := h u (by simp)
    simp only [List.map_cons, hr, firstError]
    exact ih (fun v hv => h v (by simp [hv]))

theorem filterMap_toOption_of_all_ok (fetch : String → Except Exc ScrapedResponse) :
    ∀ urls : List String, (∀ u ∈ urls, ∃ r, fetch u = .ok r) →
      ((urls.map fetch).filterMap Except.toOption).length = urls.length ∧
      (∀ i, i < urls.length → ∃ u r, urls[i]? = some u ∧
        ((urls.map fetch).filterMap Except.toOption)[i]? = some r ∧ fetch u = .ok r) := by
  intro urls
  induction urls with
  | nil => intro _; exact ⟨rfl, fun i hi => absurd hi (by simp)⟩
  | cons u us ih =>
    intro h
    obtain ⟨r, hr⟩ := h u (by simp)
    obtain ⟨ihl, ihe⟩ := ih (fun v hv => h v (by simp [hv]))
    have hcons : (((u :: us).map fetch).filterMap Except.toOption) =
        r :: ((us.map fetch).filterMap Except.toOption) := by
      simp only [List.map_cons, List.filterMap_cons, hr]
      rfl
    constructor
    · rw [hcons, List.length_cons, ihl, List.length_cons]
    · intro i hi
      match i with
      | 0 => exact ⟨u, r, by simp, by rw [hcons]; simp, hr⟩
      | Nat.succ j =>
        obtain ⟨v, s, hv, hs, hf⟩ := ihe j (by simpa using hi)
        refine ⟨v, s, by simpa using hv, ?_, hf⟩
        rw [hcons]
        simpa using hs

/-- C1 counterexample: a batch of three URLs where the middle one fails
fetches all three (gather with `return_exceptions=True`), but then the loop
in `scrape_url_list_async` re-raises the first captured exception: the
batch call surfaces `InvalidURLError` instead of returning three entries
with the error inline. -/
theorem scrape_url_list_async_raises_first_error :
    scrapeUrlListAsync fetchMixed ["https://a.com", "htp:/bad", "https://b.com"] =
      .error (.invalidURLError "Invalid URL format: htp:/bad") := by
  rfl

/-- C1 amended: the gathered sequence has exactly one outcome per input URL
in input order and sibling fetches are not cancelled by a failure; when
every URL succeeds the ordered response list is returned, but when any URL
fails the orchestrator re-raises the first captured error, so that error —
not a per-URL inline entry — escapes the batch call. -/
theorem scrape_url_list_async_contract (fetch : String → Except Exc ScrapedResponse)
    (urls : List String) :
    ((urls.map fetch).length = urls.length) ∧
    (∀ i, i < urls.length → (urls.map fetch)[i]? = (urls[i]?).map fetch) ∧
    ((∀ u ∈ urls, ∃ r, fetch u = .ok r) →
      ∃ rs, scrapeUrlListAsync fetch urls = .ok rs ∧ rs.length = urls.length ∧
        ∀ i, i < urls.length →
          ∃ u r, urls[i]? = some u ∧ rs[i]? = some r ∧ fetch u = .ok r) ∧
    (∀ e, firstError (urls.map fetch) = some e →
      scrapeUrlListAsync fetch urls = .error e) := by
  refine ⟨List.length_map urls fetch, ?_, ?_, ?_⟩
  · intro i _
    simp
  · intro hok
    refine ⟨(urls.map fetch).filterMap Except.toOption, ?_, ?_, ?_⟩
    · simp [scrapeUrlListAsync, firstError_none_of_all_ok fetch urls hok]
    · exact (filterMap_toOption_of_all_ok fetch urls hok).1
    · exact (filterMap_toOption_of_all_ok fetch urls hok).2
  · intro e he
    simp [scrapeUrlListAsync, he]

/-- C1 witness: the amended contract at a concrete all-success batch and a
concrete failing batch. -/
theorem scrape_url_list_async_contract_witness :
    (∀ u ∈ ["https://a.com", "https://b.com"], ∃ r, fetchMixed u = .ok r) ∧
    (∃ rs, scrapeUrlListAsync fetchMixed ["https://a.com", "https://b.com"] =
        .ok rs ∧ rs.length = ["https://a.com", "https://b.com"].length ∧
      ∀ i, i < ["https://a.com", "https://b.com"].length →
        ∃ u r, ["https://a.com", "https://b.com"][i]? = some u ∧
          rs[i]? = some r ∧ fetchMixed u = .ok r) ∧
    (firstError (["htp:/bad"].map fetchMixed) =
        some (.invalidURLError "Invalid URL format: htp:/bad") ∧
      scrapeUrlListAsync fetchMixed ["htp:/bad"] =
        .error (.invalidURLError "Invalid URL format: htp:/bad")) := by
  have hok : ∀ u ∈ ["https://a.com", "https://b.com"], ∃ r, fetchMixed u = .ok r := by
    intro u hu
    rcases (by simpa using hu : u = "https://a.com" ∨ u = "https://b.com") with rfl | rfl
    · exact ⟨okResp "https://a.com", rfl⟩
    · exact ⟨okResp "https://b.com", rfl⟩
  refine ⟨hok, ?_, ?_, ?_⟩
  · exact (scrape_url_list_async_contract fetchMixed
      ["https://a.com", "https://b.com"]).2.2.1 hok
  · rfl
  · exact (scrape_url_list_async_contract fetchMixed ["htp:/bad"]).2.2.2
      (.invalidURLError "Invalid URL format: htp:/bad") rfl

theorem length_execStep {A : Type} (tasks : List (Unit → A))
    (slots : List (Option A)) (i : Nat) :
    (execStep tasks slots i).length = slots.length := by
  unfold execStep
  cases tasks[i]? with
  | none => rfl
  | some t => simp

/-- The slot array after running a schedule: a slot that some scheduled step
wrote holds its own task's value; any other slot is untouched. -/
theorem foldl_execStep_getElem {A : Type} (tasks : List (Unit → A)) :
    ∀ (order : List Nat) (slots : List (Option A)),
      slots.length = tasks.length → ∀ i,
      (order.foldl (execStep tasks) slots)[i]? =
        if i ∈ order ∧ i < tasks.length then
          (tasks[i]?).map (fun t => some (t ()))
        else slots[i]? := by
  intro order
  induction order with
  | nil =>
    intro slots _ i
    simp
  | cons j rest ih =>
    intro slots hlen i
    have hlen' : (execStep tasks slots j).length = tasks.length := by
      rw [length_execStep, hlen]
    rw [List.foldl_cons, ih (execStep tasks slots j) hlen' i]
    by_cases hrest : i ∈ rest ∧ i < tasks.length
    · rw [if_pos hrest, if_pos ⟨by simp [hrest.1], hrest.2⟩]
    · rw [if_neg hrest]
      by_cases hj : i = j
      · subst hj
        by_cases hi : i < tasks.length
        · rw [if_pos ⟨by simp, hi⟩]
          have ht : tasks[i]? = some (tasks.get ⟨i, hi⟩) :=
            List.getElem?_eq_getElem hi
          unfold execStep
          rw [ht]
          simp [List.getElem?_set_self (show i < slots.length by omega)]
        · rw [if_neg (by tauto)]
          unfold execStep
          have : tasks[i]? = none := List.getElem?_eq_none (by omega)
          rw [this]
      · rw [if_neg (by
          intro ⟨hmem, hlt⟩
          rcases List.mem_cons.mp hmem with h | h
          · exact hj h
          · exact hrest ⟨h, hlt⟩)]
        unfold execStep
        cases htj : tasks[j]? with
        | none => rfl
        | some t => simp [List.getElem?_set_ne (fun h => hj h.symm)]

/-- One fetch task per URL, as created by `scrape_url_list_async`. -/
def scrapeTaskOutcomes (fetch : String → Except Exc ScrapedResponse)
    (urls : List String) (order : List Nat) :
    List (Option (Except Exc ScrapedResponse)) :=
  gatherModel (urls.map (fun u => fun _ => fetch u)) order

/-- C7: for any completion schedule that completes every task (in
particular any permutation of the task indices), the gathered output of
`scrape_url_list_async` equals the per-URL outcomes in input order: the
i-th result corresponds to the i-th input URL regardless of the order in
which the concurrent tasks finished. -/
theorem scrape_results_preserve_input_order
    (fetch : String → Except Exc ScrapedResponse) (urls : List String)
    (order : List Nat) (hcover : ∀ i, i < urls.length → i ∈ order) :
    scrapeTaskOutcomes fetch urls order = urls.map (fun u => some (fetch u)) ∧
    ∀ i, i < urls.length →
      (scrapeTaskOutcomes fetch urls order)[i]? =
        (urls[i]?).map (fun u => some (fetch u)) := by
  have hmain : scrapeTaskOutcomes fetch urls order =
      urls.map (fun u => some (fetch u)) := by
    apply List.ext_getElem?
    intro i
    unfold scrapeTaskOutcomes gatherModel
    rw [foldl_execStep_getElem _ order _ (by simp) i]
    by_cases hi : i < urls.length
    · rw [if_pos ⟨hcover i (by simpa using hi), by simpa using hi⟩]
      simp only [List.getElem?_map, Option.map_map]
      cases urls[i]? <;> rfl
    · rw [if_neg (by
        intro ⟨_, hlt⟩
        exact hi (by simpa using hlt))]
      rw [List.getElem?_eq_none (by simpa using (by omega : urls.length ≤ i)),
        List.getElem?_eq_none (by simpa using (by omega : urls.length ≤ i))]
  refine ⟨hmain, ?_⟩
  intro i _
  rw [hmain]
  simp

/-- C7 witness: three URLs completing in the schedule 2, 0, 1 still produce
results in input order. -/
theorem scrape_results_preserve_input_order_witness :
    (∀ i, i < (["https://a.com", "htp:/bad", "https://b.com"] : List String).length →
      i ∈ [2, 0, 1]) ∧
    scrapeTaskOutcomes fetchMixed ["https://a.com", "htp:/bad", "https://b.com"]
        [2, 0, 1] =
      ["https://a.com", "htp:/bad", "https://b.com"].map
        (fun u => some (fetchMixed u)) := by
  have hcover : ∀ i, i <
      (["https://a.com", "htp:/bad", "https://b.com"] : List String).length →
      i ∈ [2, 0, 1] := by
    intro i hi
    have hi3 : i < 3 := by simpa using hi
    interval_cases i <;> decide
  exact ⟨hcover, (scrape_results_preserve_input_order fetchMixed
    ["https://a.com", "htp:/bad", "https://b.com"] [2, 0, 1] hcover).1⟩

/-- C8: the `on_failure` callback of `webscrape_aiohttp` never actually
runs.  `run_on_failure` evaluates `on_failure(scrape_result)`, but
`scrape_result` is assigned only in the success branch, so on every failure
path the reference raises `NameError`, which `run_on_failure`'s own
`except Exception` catches and logs: no attempt trace ever contains an
`onFailureInvoked` event, and a failing fetch with a callback supplied
produces exactly a caught internal exception instead of the promised
callback invocation — contradicting the function's documented contract that
the callback "will be called if the scrape fails". -/
theorem on_failure_callback_never_receives_context :
    (∀ (url : String) (valid : Bool) (cfg : WebscrapeConfig)
      (net : Except Exc HttpResponse) (cb : Callbacks) (el : ℚ),
      Event.onFailureInvoked ∉ (webscrapeAiohttpAttempt url valid cfg net cb el).2) ∧
    webscrapeAiohttpAttempt "https://example.com" true { rate_limiter := none }
        (.error (.clientConnectorError "conn refused"))
        { on_failure_present := true } 0 =
      (.error (.webPageLoadError
        "Connection error for https://example.com: conn refused"),
       [Event.networkCall, Event.onFailureExcCaught]) := by
  constructor
  · intro url valid cfg net cb el
    unfold webscrapeAiohttpAttempt
    cases valid with
    | false => simp
    | true =>
      cases h : aiohttpBody url cfg net el with
      | ok r =>
          simp only [h]
          by_cases hp : cb.on_success_present <;>
            by_cases hrs : cb.on_success_raises <;>
              simp [runOnSuccess, hp, hrs]
      | error e =>
          simp only [h]
          by_cases hp : cb.on_failure_present <;> simp [runOnFailure, hp]
  · rfl

end Yomika
